import Mathlib

/-!
Shallow embedding of `src/animate.py` (class `StabilityAnimationGenerator`).

Text is modelled as `List Char`.  The external collaborators (the Stability
status endpoints, the text-to-image POST, and the moviepy renderer) are
modelled as an oracle record `Collab`: the two status checks are booleans and
the image request is a function from the prompt to either an image path or a
failure, matching the capability boundary of the source.  `create_animation`
returns `Except String (List ClipPlan)`: the `.ok` value is the ordered clip
list handed to `concatenate_videoclips` / `write_videofile` (the renderer is
invoked exactly on the `.ok` branch), and `.error` is the exception raised
before any render call.
-/

/-- Python `str.strip()` whitespace predicate: space, tab, newline, carriage
return, vertical tab (0x0b) and form feed (0x0c). -/
def isPySpace (c : Char) : Bool :=
  c = ' ' || c = '\t' || c = '\n' || c = '\r' || c.toNat = 11 || c.toNat = 12

/-- Python `str.strip()`: drop whitespace from both ends. -/
def pyStrip (l : List Char) : List Char :=
  ((l.dropWhile isPySpace).reverse.dropWhile isPySpace).reverse

/-- Python `str.split('\n')`: split into lines at newline characters
(`"".split('\n') == ['']`, hence the base case `[[]]`). -/
def splitLines : List Char → List (List Char)
  | [] => [[]]
  | c :: cs =>
    let r := splitLines cs
    if c = '\n' then [] :: r
    else
      match r with
      | [] => [[c]]
      | l :: ls => (c :: l) :: ls

/-- The literal marker `SCENE:` checked by `line.startswith('SCENE:')`. -/
def sceneMarker : List Char := ['S', 'C', 'E', 'N', 'E', ':']

/-- The literal marker `CHARACTER:` checked by `line.startswith('CHARACTER:')`. -/
def characterMarker : List Char := ['C', 'H', 'A', 'R', 'A', 'C', 'T', 'E', 'R', ':']

/-- `line.startswith(('#', '//'))`: comment lines. -/
def isComment (l : List Char) : Bool :=
  ['#'].isPrefixOf l || ['/', '/'].isPrefixOf l

/-- A scene record: the dict `{"description": ..., "characters": [...], "actions": [...]}`
built by `_parse_script`. -/
structure Scene where
  description : List Char
  characters : List (List Char)
  actions : List (List Char)
deriving DecidableEq

/-- The initial `current_scene = {"description": "", "characters": [], "actions": []}`. -/
def emptyScene : Scene := ⟨[], [], []⟩

/-- `if current_scene["description"]: scenes.append(current_scene)` — a scene is
appended to the output only when its description is non-empty (Python truthiness
of the string). -/
def sealScene (scenes : List Scene) (cur : Scene) : List Scene :=
  if cur.description.isEmpty then scenes else scenes ++ [cur]

/-- One iteration of the `for line in script.strip().split('\n')` loop of
`_parse_script`: strip the line, skip it when empty, otherwise classify it as
`SCENE:` header, `CHARACTER:` line, comment, or action, updating the
`(scenes, current_scene)` state exactly as the source does. -/
def parseStep (st : List Scene × Scene) (rawLine : List Char) : List Scene × Scene :=
  let line := pyStrip rawLine
  if line.isEmpty then st
  else if sceneMarker.isPrefixOf line then
    (sealScene st.1 st.2, ⟨pyStrip (line.drop 6), [], []⟩)
  else if characterMarker.isPrefixOf line then
    (st.1, { st.2 with characters := st.2.characters ++ [pyStrip (line.drop 10)] })
  else if isComment line then st
  else (st.1, { st.2 with actions := st.2.actions ++ [line] })

/-- The body of `_parse_script` after the input has been split into lines:
fold the loop over the lines and seal the final scene if its description is
non-empty. -/
def parseLines (lines : List (List Char)) : List Scene :=
  let st := lines.foldl parseStep ([], emptyScene)
  sealScene st.1 st.2

/-- `_parse_script(self, script)`: strip the whole script, split it on
newlines, and run the scene-building loop. -/
def parse_script (script : List Char) : List Scene :=
  parseLines (splitLines (pyStrip script))

/-- One text overlay: a `TextClip` with its `set_start` offset and
`set_duration` length (seconds). -/
structure OverlayEvent where
  text : List Char
  start : Nat
  duration : Nat
deriving DecidableEq

/-- `scene_duration = max(len(scene["actions"]) * 3, 5)` (line 117). -/
def scene_duration (scene : Scene) : Nat :=
  max (scene.actions.length * 3) 5

/-- The `for i, action in enumerate(scene["actions"])` loop (lines 121-132):
the i-th action yields a text overlay starting at `i * 3` with duration 3. -/
def overlay_events (scene : Scene) : List OverlayEvent :=
  scene.actions.enum.map (fun p => ⟨p.2, p.1 * 3, 3⟩)

/-- Opaque handle to a generated image: the file path returned by
`generate_scene_image`. -/
abbrev ImageRef := List Char

/-- One composited clip (`CompositeVideoClip([scene_clip] + text_clips)`):
the scene image shown for `scene_duration` seconds with the action overlays. -/
structure ClipPlan where
  image_reference : ImageRef
  duration : Nat
  overlay_events : List OverlayEvent
deriving DecidableEq

/-- Build the clip plan for one scene from its resolved image (lines 117-138). -/
def planClip (scene : Scene) (img : ImageRef) : ClipPlan :=
  ⟨img, scene_duration scene, overlay_events scene⟩

/-- The external collaborators: the two Stability status checks (booleans) and
the outcome of the text-to-image request for a given scene description. -/
structure Collab where
  api_status : Bool
  components_status : Bool
  gen : List Char → Except String ImageRef

/-- `generate_scene_image` (lines 48-95): raise when either status check
fails, otherwise return the collaborator's outcome for this prompt. -/
def generate_scene_image (c : Collab) (scene_description : List Char) :
    Except String ImageRef :=
  if !c.api_status || !c.components_status then
    Except.error "Stability AI API is currently experiencing issues"
  else c.gen scene_description

/-- The `for scene in scenes` loop of `create_animation` (lines 108-143): any
exception while processing a scene (image generation included) is caught and
the scene is skipped; a successful scene contributes its composited clip. -/
def timeline (c : Collab) (scenes : List Scene) : List ClipPlan :=
  scenes.filterMap (fun scene =>
    match generate_scene_image c scene.description with
    | Except.ok img => some (planClip scene img)
    | Except.error _ => none)

/-- `create_animation` (lines 97-164): parse the script, build the clips with
per-scene failure skipping, raise `"No scenes were successfully generated"`
when no clip was built, otherwise hand the ordered clip list to the renderer
(the `.ok` branch models the `concatenate_videoclips` / `write_videofile`
call). -/
def create_animation (c : Collab) (script : List Char) :
    Except String (List ClipPlan) :=
  let clips := timeline c (parse_script script)
  if clips.isEmpty then Except.error "No scenes were successfully generated"
  else Except.ok clips

/-- The renderer collaborator is invoked exactly when `create_animation`
reaches the concatenation/encoding step, i.e. on the `.ok` branch. -/
def render_invoked (r : Except String (List ClipPlan)) : Bool :=
  match r with
  | Except.ok _ => true
  | Except.error _ => false

/-! ## Timing claims -/

/-- C1: for every Scene, the clip duration computed by the planner equals
`max(3 * len(scene.actions), 5)` seconds; consequently it is always `≥ 5` and
monotonically non-decreasing in the number of actions. -/
theorem clip_duration_spec (scene s1 s2 : Scene)
    (h : s1.actions.length ≤ s2.actions.length) :
    scene_duration scene = max (3 * scene.actions.length) 5 ∧
    5 ≤ scene_duration scene ∧
    scene_duration s1 ≤ scene_duration s2 := by
  refine ⟨by simp [scene_duration, Nat.mul_comm], le_max_right _ _, ?_⟩
  exact max_le_max (by omega) le_rfl

/-- Witness for C1 at concrete scenes with 1 and 2 actions. -/
theorem clip_duration_spec_w :
    scene_duration ⟨['a'], [], [['x']]⟩ = max (3 * 1) 5 ∧
    5 ≤ scene_duration ⟨['a'], [], [['x']]⟩ ∧
    scene_duration ⟨['a'], [], [['x']]⟩ ≤ scene_duration ⟨['b'], [], [['x'], ['y']]⟩ :=
  clip_duration_spec ⟨['a'], [], [['x']]⟩ ⟨['a'], [], [['x']]⟩ ⟨['b'], [], [['x'], ['y']]⟩
    (by decide)

/-- C2: the overlay events of a clip are exactly one per action, in action
order: the i-th (0-based) action yields the i-th overlay, with text equal to
that action, start `i * 3` seconds and duration 3 seconds, and every overlay
ends no later than the clip's duration. -/
theorem overlay_events_spec (scene : Scene) :
    (overlay_events scene).length = scene.actions.length ∧
    (∀ (i : Nat) (a : List Char), scene.actions[i]? = some a →
      (overlay_events scene)[i]? = some (OverlayEvent.mk a (i * 3) 3)) ∧
    ∀ e ∈ overlay_events scene, e.start + e.duration ≤ scene_duration scene := by
  refine ⟨by simp [overlay_events], ?_, ?_⟩
  · intro i a ha
    simp [overlay_events, List.getElem?_enum, ha]
  · intro e he
    rcases List.mem_map.mp he with ⟨⟨i, a⟩, hmem, hfe⟩
    have hi : i < scene.actions.length := by
      have h2 := List.mem_enum_iff_getElem?.mp hmem
      rcases List.getElem?_eq_some.mp h2 with ⟨hi, -⟩
      exact hi
    subst hfe
    simp only [scene_duration]
    omega

/-- Witness for C2 at a concrete scene with two actions. -/
theorem overlay_events_spec_w :
    (overlay_events ⟨['d'], [], [['a'], ['b']]⟩)[1]? = some ⟨['b'], 1 * 3, 3⟩ :=
  (overlay_events_spec ⟨['d'], [], [['a'], ['b']]⟩).2.1 1 ['b'] (by decide)

/-- C9: the characters list does not influence timing: two scenes that agree
on their actions (planned against the same image reference) yield clips with
the same duration and identical overlay events, whatever their characters
sequences are. -/
theorem characters_noninterference (s1 s2 : Scene) (img : ImageRef)
    (h : s1.actions = s2.actions) :
    (planClip s1 img).duration = (planClip s2 img).duration ∧
    (planClip s1 img).overlay_events = (planClip s2 img).overlay_events := by
  simp [planClip, scene_duration, overlay_events, h]

/-- Witness for C9 at two concrete scenes differing only in characters. -/
theorem characters_noninterference_w :
    (planClip ⟨['d'], [['c']], [['a']]⟩ ['p']).duration =
      (planClip ⟨['d'], [['c'], ['e']], [['a']]⟩ ['p']).duration ∧
    (planClip ⟨['d'], [['c']], [['a']]⟩ ['p']).overlay_events =
      (planClip ⟨['d'], [['c'], ['e']], [['a']]⟩ ['p']).overlay_events :=
  characters_noninterference ⟨['d'], [['c']], [['a']]⟩ ⟨['d'], [['c'], ['e']], [['a']]⟩ ['p']
    (by decide)

/-! ## Orchestration claims -/

instance {ε α : Type} [DecidableEq ε] [DecidableEq α] : DecidableEq (Except ε α) := by
  intro a b
  cases a <;> cases b
  case ok.ok x y =>
    exact decidable_of_iff (x = y) (by simp)
  case error.error x y =>
    exact decidable_of_iff (x = y) (by simp)
  all_goals exact isFalse (by simp)

/-- The per-scene clip construction keeps exactly the scenes whose image
request succeeded, in order: `timeline` is the map of `planClip` over the
filtered scene list. -/
theorem timeline_filter_map (c : Collab) (scenes : List Scene) :
    timeline c scenes =
      (scenes.filter
          (fun sc => ((generate_scene_image c sc.description).toOption).isSome)).map
        (fun sc => planClip sc (((generate_scene_image c sc.description).toOption).getD [])) := by
  induction scenes with
  | nil => rfl
  | cons sc scs ih =>
    simp only [timeline] at ih ⊢
    rw [List.filterMap_cons, List.filter_cons]
    cases hgen : generate_scene_image c sc.description <;>
      simp [hgen, Except.toOption, ih]

/-- C5: if image generation fails for every parsed scene, `create_animation`
terminates with the `"No scenes were successfully generated"` error and the
renderer is never invoked. -/
theorem all_fail_no_render (c : Collab) (script : List Char)
    (h : ∀ sc ∈ parse_script script,
      ∃ e, generate_scene_image c sc.description = Except.error e) :
    create_animation c script = Except.error "No scenes were successfully generated" ∧
    render_invoked (create_animation c script) = false := by
  have ht : timeline c (parse_script script) = [] := by
    refine List.filterMap_eq_nil_iff.mpr ?_
    intro sc hsc
    rcases h sc hsc with ⟨e, he⟩
    simp [he]
  have hc : create_animation c script =
      Except.error "No scenes were successfully generated" := by
    simp [create_animation, ht]
  exact ⟨hc, by rw [hc]; rfl⟩

/-- A collaborator whose statuses are fine but whose image requests all fail. -/
def cFail : Collab := ⟨true, true, fun _ => Except.error "Image generation failed"⟩

/-- A one-scene script. -/
def wScript1 : List Char := "SCENE: a".toList

/-- Witness for C5: one parsed scene, its image request fails. -/
theorem all_fail_no_render_w :
    create_animation cFail wScript1 = Except.error "No scenes were successfully generated" ∧
    render_invoked (create_animation cFail wScript1) = false :=
  all_fail_no_render cFail wScript1 (fun _ _ => ⟨"Image generation failed", rfl⟩)

/-- C7: if image generation fails for a strict subset of the parsed scenes,
the failing scenes are skipped: `create_animation` hands the renderer exactly
one `ClipPlan` per succeeding scene, in the original relative script order of
the surviving scenes. -/
theorem partial_failure_skip (c : Collab) (script : List Char)
    (hfail : ∃ sc ∈ parse_script script,
      ∃ e, generate_scene_image c sc.description = Except.error e)
    (hok : ∃ sc ∈ parse_script script,
      ∃ img, generate_scene_image c sc.description = Except.ok img) :
    create_animation c script = Except.ok (timeline c (parse_script script)) ∧
    timeline c (parse_script script) =
      ((parse_script script).filter
          (fun sc => ((generate_scene_image c sc.description).toOption).isSome)).map
        (fun sc => planClip sc (((generate_scene_image c sc.description).toOption).getD [])) := by
  refine ⟨?_, timeline_filter_map c (parse_script script)⟩
  rcases hok with ⟨sc, hmem, img, hgen⟩
  have hne : planClip sc img ∈ timeline c (parse_script script) :=
    List.mem_filterMap.mpr ⟨sc, hmem, by simp [hgen]⟩
  have hemp : (timeline c (parse_script script)).isEmpty = false := by
    cases htl : timeline c (parse_script script) with
    | nil => rw [htl] at hne; cases hne
    | cons _ _ => rfl
  simp [create_animation, hemp]

/-- A collaborator for which only the scene described `a` succeeds. -/
def cMixed : Collab :=
  ⟨true, true, fun d =>
    if d = ['a'] then Except.ok ['p'] else Except.error "Image generation failed"⟩

/-- A two-scene script whose scenes are described `a` and `b`. -/
def wScript2 : List Char := "SCENE: a\nSCENE: b".toList

/-- Witness for C7: of two parsed scenes one fails, and the renderer receives
exactly the surviving scene's clip. -/
theorem partial_failure_skip_w :
    create_animation cMixed wScript2 = Except.ok (timeline cMixed (parse_script wScript2)) ∧
    timeline cMixed (parse_script wScript2) =
      ((parse_script wScript2).filter
          (fun sc => ((generate_scene_image cMixed sc.description).toOption).isSome)).map
        (fun sc =>
          planClip sc (((generate_scene_image cMixed sc.description).toOption).getD [])) :=
  partial_failure_skip cMixed wScript2
    ⟨⟨['b'], [], []⟩, by decide, "Image generation failed", rfl⟩
    ⟨⟨['a'], [], []⟩, by decide, ['p'], rfl⟩

/-- A collaborator whose availability check reports the service down, while
the image request itself would succeed. -/
def cDown : Collab := ⟨false, true, fun _ => Except.ok ['p']⟩

/-- Counterexample to C6: with the service reported unavailable and a
one-scene script, the terminal outcome of `create_animation` is the
`"No scenes were successfully generated"` error, not the
`"Stability AI API is currently experiencing issues"` error — the
service-unavailable failure is absorbed by the per-scene handler instead of
propagating to the caller. -/
theorem service_down_not_terminal :
    cDown.api_status = false ∧
    create_animation cDown wScript1 = Except.error "No scenes were successfully generated" ∧
    create_animation cDown wScript1 ≠
      Except.error "Stability AI API is currently experiencing issues" :=
  ⟨rfl, rfl, by decide⟩

/-- C6 amended: if the service-availability check reports the external
service unavailable, every per-scene image request raises the
`"Stability AI API is currently experiencing issues"` error inside the loop;
these failures are absorbed as per-scene skips, and the run terminates with
the `"No scenes were successfully generated"` error instead of the
service-unavailable error. -/
theorem service_down_absorbed (c : Collab) (script : List Char)
    (h : c.api_status = false ∨ c.components_status = false) :
    (∀ d, generate_scene_image c d =
      Except.error "Stability AI API is currently experiencing issues") ∧
    create_animation c script = Except.error "No scenes were successfully generated" := by
  have hgen : ∀ d, generate_scene_image c d =
      Except.error "Stability AI API is currently experiencing issues" := by
    intro d
    rcases h with h | h <;> simp [generate_scene_image, h]
  refine ⟨hgen, ?_⟩
  have ht : timeline c (parse_script script) = [] := by
    refine List.filterMap_eq_nil_iff.mpr ?_
    intro sc _
    simp [hgen sc.description]
  simp [create_animation, ht]

/-- Witness for the amended C6 at the concrete down collaborator. -/
theorem service_down_absorbed_w :
    (∀ d, generate_scene_image cDown d =
      Except.error "Stability AI API is currently experiencing issues") ∧
    create_animation cDown wScript1 = Except.error "No scenes were successfully generated" :=
  service_down_absorbed cDown wScript1 (Or.inl rfl)

/-! ## Parser claims: infrastructure -/

/-- A line that (after trimming) starts with `SCENE:` and has a non-empty
trimmed remainder after the marker — the lines that give rise to scenes. -/
def isSceneDecl (l : List Char) : Bool :=
  sceneMarker.isPrefixOf (pyStrip l) && !(pyStrip ((pyStrip l).drop 6)).isEmpty

/-- A line carrying the `SCENE:` marker is non-empty after trimming. -/
theorem scene_header_ne_nil {x : List Char} (h : sceneMarker.isPrefixOf x = true) :
    x.isEmpty = false := by
  cases x with
  | nil => exact absurd h (by decide)
  | cons _ _ => rfl

theorem sealScene_length (S : List Scene) (cur : Scene) :
    (sealScene S cur).length = S.length + (if cur.description.isEmpty then 0 else 1) := by
  unfold sealScene
  split <;> simp

theorem sealScene_append (S T : List Scene) (cur : Scene) :
    sealScene (S ++ T) cur = S ++ sealScene T cur := by
  unfold sealScene
  split <;> simp

/-- Branch lemma: blank lines are skipped. -/
theorem parseStep_blank (st : List Scene × Scene) (l : List Char)
    (h : (pyStrip l).isEmpty = true) : parseStep st l = st := by
  simp [parseStep, h]

/-- Branch lemma: a `SCENE:` line seals the current scene if its description
is non-empty and opens a fresh scene from the trimmed remainder. -/
theorem parseStep_scene (st : List Scene × Scene) (l : List Char)
    (h2 : sceneMarker.isPrefixOf (pyStrip l) = true) :
    parseStep st l = (sealScene st.1 st.2, ⟨pyStrip ((pyStrip l).drop 6), [], []⟩) := by
  simp [parseStep, scene_header_ne_nil h2, h2]

/-- Branch lemma: a `CHARACTER:` line appends its trimmed remainder to the
current scene's characters. -/
theorem parseStep_character (st : List Scene × Scene) (l : List Char)
    (h1 : (pyStrip l).isEmpty = false)
    (h2 : sceneMarker.isPrefixOf (pyStrip l) = false)
    (h3 : characterMarker.isPrefixOf (pyStrip l) = true) :
    parseStep st l =
      (st.1, { st.2 with characters := st.2.characters ++ [pyStrip ((pyStrip l).drop 10)] }) := by
  simp [parseStep, h1, h2, h3]

/-- Branch lemma: comment lines are ignored. -/
theorem parseStep_comment (st : List Scene × Scene) (l : List Char)
    (h1 : (pyStrip l).isEmpty = false)
    (h2 : sceneMarker.isPrefixOf (pyStrip l) = false)
    (h3 : characterMarker.isPrefixOf (pyStrip l) = false)
    (h4 : isComment (pyStrip l) = true) : parseStep st l = st := by
  simp [parseStep, h1, h2, h3, h4]

/-- Branch lemma: any other line is appended (trimmed) to the current scene's
actions. -/
theorem parseStep_action (st : List Scene × Scene) (l : List Char)
    (h1 : (pyStrip l).isEmpty = false)
    (h2 : sceneMarker.isPrefixOf (pyStrip l) = false)
    (h3 : characterMarker.isPrefixOf (pyStrip l) = false)
    (h4 : isComment (pyStrip l) = false) :
    parseStep st l = (st.1, { st.2 with actions := st.2.actions ++ [pyStrip l] }) := by
  simp [parseStep, h1, h2, h3, h4]

/-- Loop invariant for the scene count: sealed scenes plus the pending scene
(counted when its description is non-empty) grow by exactly one per
scene-declaring line. -/
theorem parse_count_inv (lines : List (List Char)) (S : List Scene) (cur : Scene) :
    ((lines.foldl parseStep (S, cur)).1).length +
      (if ((lines.foldl parseStep (S, cur)).2).description.isEmpty then 0 else 1) =
    S.length + (if cur.description.isEmpty then 0 else 1) + lines.countP isSceneDecl := by
  induction lines generalizing S cur with
  | nil => simp
  | cons l ls ih =>
    rw [List.foldl_cons, List.countP_cons]
    by_cases h1 : (pyStrip l).isEmpty = true
    · have hdecl : isSceneDecl l = false := by
        have := scene_header_ne_nil (x := pyStrip l)
        unfold isSceneDecl
        cases hp : sceneMarker.isPrefixOf (pyStrip l) with
        | false => rfl
        | true => rw [this hp] at h1; cases h1
      rw [parseStep_blank _ _ h1, ih, hdecl]
      simp
    · rw [Bool.not_eq_true] at h1
      by_cases h2 : sceneMarker.isPrefixOf (pyStrip l) = true
      · rw [parseStep_scene _ _ h2, ih]
        have hdecl : isSceneDecl l = (!(pyStrip ((pyStrip l).drop 6)).isEmpty) := by
          unfold isSceneDecl
          rw [h2, Bool.true_and]
        rw [hdecl, sealScene_length]
        cases hrem : (pyStrip ((pyStrip l).drop 6)).isEmpty <;> simp <;> omega
      · rw [Bool.not_eq_true] at h2
        have hdecl : isSceneDecl l = false := by
          unfold isSceneDecl
          rw [h2, Bool.false_and]
        rw [hdecl]
        by_cases h3 : characterMarker.isPrefixOf (pyStrip l) = true
        · rw [parseStep_character _ _ h1 h2 h3, ih]
          simp
        · rw [Bool.not_eq_true] at h3
          by_cases h4 : isComment (pyStrip l) = true
          · rw [parseStep_comment _ _ h1 h2 h3 h4, ih]
            simp
          · rw [Bool.not_eq_true] at h4
            rw [parseStep_action _ _ h1 h2 h3 h4, ih]
            simp

/-- Sealing preserves "every emitted scene has a non-empty description". -/
theorem sealScene_desc (S : List Scene) (cur : Scene)
    (hS : ∀ sc ∈ S, sc.description.isEmpty = false) :
    ∀ sc ∈ sealScene S cur, sc.description.isEmpty = false := by
  intro sc hsc
  unfold sealScene at hsc
  cases hc : cur.description.isEmpty with
  | true => rw [hc] at hsc; simp at hsc; exact hS sc hsc
  | false =>
    rw [hc] at hsc
    simp at hsc
    rcases hsc with h | h
    · exact hS sc h
    · rw [h]; exact hc

/-- Loop invariant: every scene in the sealed-output accumulator has a
non-empty description. -/
theorem parse_desc_inv (lines : List (List Char)) (S : List Scene) (cur : Scene)
    (hS : ∀ sc ∈ S, sc.description.isEmpty = false) :
    ∀ sc ∈ (lines.foldl parseStep (S, cur)).1, sc.description.isEmpty = false := by
  induction lines generalizing S cur with
  | nil => exact hS
  | cons l ls ih =>
    rw [List.foldl_cons]
    by_cases h1 : (pyStrip l).isEmpty = true
    · rw [parseStep_blank _ _ h1]; exact ih S cur hS
    · rw [Bool.not_eq_true] at h1
      by_cases h2 : sceneMarker.isPrefixOf (pyStrip l) = true
      · rw [parseStep_scene _ _ h2]
        exact ih _ _ (sealScene_desc S cur hS)
      · rw [Bool.not_eq_true] at h2
        by_cases h3 : characterMarker.isPrefixOf (pyStrip l) = true
        · rw [parseStep_character _ _ h1 h2 h3]; exact ih _ _ hS
        · rw [Bool.not_eq_true] at h3
          by_cases h4 : isComment (pyStrip l) = true
          · rw [parseStep_comment _ _ h1 h2 h3 h4]; exact ih _ _ hS
          · rw [Bool.not_eq_true] at h4
            rw [parseStep_action _ _ h1 h2 h3 h4]; exact ih _ _ hS

/-- C3: for every input text, the number of Scene records returned by the
parser equals the number of lines that (after trimming) start with `SCENE:`
and have a non-empty trimmed remainder after the marker; and no Scene with an
empty description is ever emitted. -/
theorem parse_scene_count (script : List Char) :
    (parse_script script).length = (splitLines (pyStrip script)).countP isSceneDecl ∧
    ∀ sc ∈ parse_script script, sc.description ≠ [] := by
  constructor
  · have h := parse_count_inv (splitLines (pyStrip script)) [] emptyScene
    simp only [parse_script, parseLines, sealScene_length]
    simp only [emptyScene] at h ⊢
    simpa using h
  · intro sc hsc
    have hdesc : sc.description.isEmpty = false := by
      have hinv := parse_desc_inv (splitLines (pyStrip script)) [] emptyScene
        (by intro sc h; cases h)
      simp only [parse_script, parseLines] at hsc
      exact sealScene_desc _ _ hinv sc hsc
    intro hnil
    rw [hnil] at hdesc
    simp at hdesc

/-- Witness for C3: the scene parsed from a one-scene script has a non-empty
description. -/
theorem parse_scene_count_w : (⟨['a'], [], []⟩ : Scene).description ≠ [] :=
  (parse_scene_count wScript1).2 ⟨['a'], [], []⟩ (by decide)

/-- Two parser states that hold the same sealed scenes and whose pending
scenes both have empty descriptions (or are identical) are observationally
equivalent: the pending characters/actions of a never-sealed scene cannot
reach the output. -/
def StateRel (s t : List Scene × Scene) : Prop :=
  s.1 = t.1 ∧ (s.2 = t.2 ∨ (s.2.description = [] ∧ t.2.description = []))

theorem stateRel_step (s t : List Scene × Scene) (l : List Char)
    (h : StateRel s t) : StateRel (parseStep s l) (parseStep t l) := by
  rcases h with ⟨h1, h2 | h2⟩
  · have hst : s = t := Prod.ext h1 h2
    rw [hst]
    exact ⟨rfl, Or.inl rfl⟩
  · have hse : s.2.description.isEmpty = true := by rw [h2.1]; rfl
    have hte : t.2.description.isEmpty = true := by rw [h2.2]; rfl
    by_cases hb1 : (pyStrip l).isEmpty = true
    · rw [parseStep_blank _ _ hb1, parseStep_blank _ _ hb1]
      exact ⟨h1, Or.inr h2⟩
    · rw [Bool.not_eq_true] at hb1
      by_cases hb2 : sceneMarker.isPrefixOf (pyStrip l) = true
      · rw [parseStep_scene _ _ hb2, parseStep_scene _ _ hb2]
        refine ⟨?_, Or.inl rfl⟩
        show sealScene s.1 s.2 = sealScene t.1 t.2
        unfold sealScene
        rw [hse, hte, if_pos rfl, if_pos rfl, h1]
      · rw [Bool.not_eq_true] at hb2
        by_cases hb3 : characterMarker.isPrefixOf (pyStrip l) = true
        · rw [parseStep_character _ _ hb1 hb2 hb3, parseStep_character _ _ hb1 hb2 hb3]
          exact ⟨h1, Or.inr ⟨h2.1, h2.2⟩⟩
        · rw [Bool.not_eq_true] at hb3
          by_cases hb4 : isComment (pyStrip l) = true
          · rw [parseStep_comment _ _ hb1 hb2 hb3 hb4, parseStep_comment _ _ hb1 hb2 hb3 hb4]
            exact ⟨h1, Or.inr h2⟩
          · rw [Bool.not_eq_true] at hb4
            rw [parseStep_action _ _ hb1 hb2 hb3 hb4, parseStep_action _ _ hb1 hb2 hb3 hb4]
            exact ⟨h1, Or.inr ⟨h2.1, h2.2⟩⟩

theorem stateRel_foldl (lines : List (List Char)) (s t : List Scene × Scene)
    (h : StateRel s t) :
    StateRel (lines.foldl parseStep s) (lines.foldl parseStep t) := by
  induction lines generalizing s t with
  | nil => exact h
  | cons l ls ih => exact ih _ _ (stateRel_step s t l h)

/-- Equivalent states seal to the same parser output. -/
theorem stateRel_seal (s t : List Scene × Scene) (h : StateRel s t) :
    sealScene s.1 s.2 = sealScene t.1 t.2 := by
  rcases h with ⟨h1, h2 | h2⟩
  · rw [h1, h2]
  · have hse : s.2.description.isEmpty = true := by rw [h2.1]; rfl
    have hte : t.2.description.isEmpty = true := by rw [h2.2]; rfl
    unfold sealScene
    rw [hse, hte, if_pos rfl, if_pos rfl, h1]

/-- Folding lines that never carry the `SCENE:` marker leaves the sealed
output untouched and never fills in a description. -/
theorem foldl_no_scene (lines : List (List Char))
    (h : ∀ l ∈ lines, sceneMarker.isPrefixOf (pyStrip l) = false)
    (S : List Scene) (cur : Scene) :
    (lines.foldl parseStep (S, cur)).1 = S ∧
    ((lines.foldl parseStep (S, cur)).2).description = cur.description := by
  induction lines generalizing S cur with
  | nil => exact ⟨rfl, rfl⟩
  | cons l ls ih =>
    have hl := h l (List.mem_cons_self l ls)
    have hrest : ∀ l' ∈ ls, sceneMarker.isPrefixOf (pyStrip l') = false :=
      fun l' hl' => h l' (List.mem_cons_of_mem _ hl')
    rw [List.foldl_cons]
    by_cases h1 : (pyStrip l).isEmpty = true
    · rw [parseStep_blank _ _ h1]; exact ih hrest S cur
    · rw [Bool.not_eq_true] at h1
      by_cases h3 : characterMarker.isPrefixOf (pyStrip l) = true
      · rw [parseStep_character _ _ h1 hl h3]
        exact ih hrest S _
      · rw [Bool.not_eq_true] at h3
        by_cases h4 : isComment (pyStrip l) = true
        · rw [parseStep_comment _ _ h1 hl h3 h4]; exact ih hrest S cur
        · rw [Bool.not_eq_true] at h4
          rw [parseStep_action _ _ h1 hl h3 h4]
          exact ih hrest S _

/-- Lines carrying no `SCENE:` marker ahead of the rest of the input leave
the parser output unchanged. -/
theorem parseLines_drop_pre (pre rest : List (List Char))
    (h : ∀ l ∈ pre, sceneMarker.isPrefixOf (pyStrip l) = false) :
    parseLines (pre ++ rest) = parseLines rest := by
  have hpre := foldl_no_scene pre h [] emptyScene
  have hrel : StateRel (pre.foldl parseStep ([], emptyScene)) ([], emptyScene) := by
    refine ⟨hpre.1, Or.inr ⟨?_, rfl⟩⟩
    exact hpre.2
  simp only [parseLines, List.foldl_append]
  exact stateRel_seal _ _ (stateRel_foldl rest _ _ hrel)

/-- C8: for every input text, any `CHARACTER:` or action line appearing
before the first `SCENE:` marker is silently dropped: the parser (which is
total, hence never fails) returns exactly the output it returns for the
remainder of the input, so the stray lines appear in no Scene. -/
theorem pre_marker_lines_dropped (script : List Char) (pre rest : List (List Char))
    (hsplit : splitLines (pyStrip script) = pre ++ rest)
    (h : ∀ l ∈ pre, sceneMarker.isPrefixOf (pyStrip l) = false) :
    parse_script script = parseLines rest := by
  unfold parse_script
  rw [hsplit]
  exact parseLines_drop_pre pre rest h

/-- Witness for C8: a `CHARACTER:` line and an action line before the first
`SCENE:` marker leave the parse of the remainder unchanged. -/
theorem pre_marker_lines_dropped_w :
    parse_script "CHARACTER: x\nstray\nSCENE: a".toList = parseLines ["SCENE: a".toList] :=
  pre_marker_lines_dropped "CHARACTER: x\nstray\nSCENE: a".toList
    ["CHARACTER: x".toList, "stray".toList] ["SCENE: a".toList] (by decide) (by decide)

/-- After a `SCENE:` header whose trimmed remainder is empty, marker-free
lines are attached to the never-sealed empty-description scene: dropping them
does not change the parser output. -/
theorem parseLines_empty_header (pre mid rest : List (List Char)) (e : List Char)
    (he : sceneMarker.isPrefixOf (pyStrip e) = true)
    (hd : pyStrip ((pyStrip e).drop 6) = [])
    (hm : ∀ l ∈ mid, sceneMarker.isPrefixOf (pyStrip l) = false) :
    parseLines (pre ++ e :: (mid ++ rest)) = parseLines (pre ++ e :: rest) := by
  simp only [parseLines, List.foldl_append, List.foldl_cons]
  rw [parseStep_scene _ _ he, hd]
  have hacc := foldl_no_scene mid hm
    (sealScene ((pre.foldl parseStep ([], emptyScene)).1)
      ((pre.foldl parseStep ([], emptyScene)).2))
    ⟨[], [], []⟩
  have hrel : StateRel
      (mid.foldl parseStep
        (sealScene ((pre.foldl parseStep ([], emptyScene)).1)
          ((pre.foldl parseStep ([], emptyScene)).2), ⟨[], [], []⟩))
      (sealScene ((pre.foldl parseStep ([], emptyScene)).1)
        ((pre.foldl parseStep ([], emptyScene)).2), ⟨[], [], []⟩) :=
    ⟨hacc.1, Or.inr ⟨hacc.2, rfl⟩⟩
  exact stateRel_seal _ _ (stateRel_foldl rest _ _ hrel)

/-- C10: for every input text, `CHARACTER:` and action lines that follow a
`SCENE:` marker with empty trimmed remainder (and precede the next marker)
are attached to that empty-description scene, which is never sealed: the
parser output equals the output for the same text with those lines removed,
so they leak into neither the preceding nor the following scene's records. -/
theorem empty_header_absorbs (script : List Char) (pre mid rest : List (List Char))
    (e : List Char)
    (hsplit : splitLines (pyStrip script) = pre ++ e :: (mid ++ rest))
    (he : sceneMarker.isPrefixOf (pyStrip e) = true)
    (hd : pyStrip ((pyStrip e).drop 6) = [])
    (hm : ∀ l ∈ mid, sceneMarker.isPrefixOf (pyStrip l) = false) :
    parse_script script = parseLines (pre ++ e :: rest) := by
  unfold parse_script
  rw [hsplit]
  exact parseLines_empty_header pre mid rest e he hd hm

/-- Witness for C10: a ghost action and a `CHARACTER:` line after an empty
`SCENE:` header vanish from the output. -/
theorem empty_header_absorbs_w :
    parse_script "SCENE: a\nact1\nSCENE:\nghost\nCHARACTER: g\nSCENE: b".toList =
      parseLines
        ["SCENE: a".toList, "act1".toList, "SCENE:".toList, "SCENE: b".toList] :=
  empty_header_absorbs "SCENE: a\nact1\nSCENE:\nghost\nCHARACTER: g\nSCENE: b".toList
    ["SCENE: a".toList, "act1".toList] ["ghost".toList, "CHARACTER: g".toList]
    ["SCENE: b".toList] "SCENE:".toList (by decide) (by decide) (by decide) (by decide)

/-- The `CHARACTER:` payload a line contributes to the open scene, following
the branch order of the loop (`None` for blank, `SCENE:`, comment and action
lines). -/
def classifyChar (l : List Char) : Option (List Char) :=
  let t := pyStrip l
  if t.isEmpty then none
  else if sceneMarker.isPrefixOf t then none
  else if characterMarker.isPrefixOf t then some (pyStrip (t.drop 10))
  else none

/-- The action payload a line contributes to the open scene, following the
branch order of the loop (`None` for blank, `SCENE:`, `CHARACTER:` and
comment lines). -/
def classifyAction (l : List Char) : Option (List Char) :=
  let t := pyStrip l
  if t.isEmpty then none
  else if sceneMarker.isPrefixOf t then none
  else if characterMarker.isPrefixOf t then none
  else if isComment t then none
  else some t

/-- One loop step only ever appends to the sealed-scenes accumulator, so a
prefix of sealed scenes passes through unchanged. -/
theorem parseStep_shift (S : List Scene) (cur : Scene) (l : List Char) :
    parseStep (S, cur) l =
      (S ++ (parseStep ([], cur) l).1, (parseStep ([], cur) l).2) := by
  by_cases h1 : (pyStrip l).isEmpty = true
  · rw [parseStep_blank _ _ h1, parseStep_blank _ _ h1]
    simp
  · rw [Bool.not_eq_true] at h1
    by_cases h2 : sceneMarker.isPrefixOf (pyStrip l) = true
    · rw [parseStep_scene _ _ h2, parseStep_scene _ _ h2]
      unfold sealScene
      split <;> simp
    · rw [Bool.not_eq_true] at h2
      by_cases h3 : characterMarker.isPrefixOf (pyStrip l) = true
      · rw [parseStep_character _ _ h1 h2 h3, parseStep_character _ _ h1 h2 h3]
        simp
      · rw [Bool.not_eq_true] at h3
        by_cases h4 : isComment (pyStrip l) = true
        · rw [parseStep_comment _ _ h1 h2 h3 h4, parseStep_comment _ _ h1 h2 h3 h4]
          simp
        · rw [Bool.not_eq_true] at h4
          rw [parseStep_action _ _ h1 h2 h3 h4, parseStep_action _ _ h1 h2 h3 h4]
          simp

/-- A prefix of sealed scenes passes through a whole fold unchanged. -/
theorem scenes_shift (lines : List (List Char)) (S : List Scene) (cur : Scene) :
    lines.foldl parseStep (S, cur) =
      (S ++ (lines.foldl parseStep ([], cur)).1, (lines.foldl parseStep ([], cur)).2) := by
  induction lines generalizing S cur with
  | nil => simp
  | cons l ls ih =>
    rw [List.foldl_cons, List.foldl_cons, parseStep_shift S cur l]
    rcases hps : parseStep ([], cur) l with ⟨A1, c1⟩
    rw [ih (S ++ A1) c1, ih A1 c1]
    simp


/-- Folding marker-free lines accumulates exactly their `CHARACTER:` payloads
and their action payloads, in line order, onto the open scene. -/
theorem foldl_accum (lines : List (List Char))
    (h : ∀ l ∈ lines, sceneMarker.isPrefixOf (pyStrip l) = false)
    (S : List Scene) (d : List Char) (cs as : List (List Char)) :
    lines.foldl parseStep (S, ⟨d, cs, as⟩) =
      (S, ⟨d, cs ++ lines.filterMap classifyChar, as ++ lines.filterMap classifyAction⟩) := by
  induction lines generalizing cs as with
  | nil => simp
  | cons l ls ih =>
    have hl := h l (List.mem_cons_self l ls)
    have hrest : ∀ l' ∈ ls, sceneMarker.isPrefixOf (pyStrip l') = false :=
      fun l' hl' => h l' (List.mem_cons_of_mem _ hl')
    rw [List.foldl_cons, List.filterMap_cons, List.filterMap_cons]
    by_cases h1 : (pyStrip l).isEmpty = true
    · rw [parseStep_blank _ _ h1, ih hrest cs as]
      simp [classifyChar, classifyAction, h1]
    · rw [Bool.not_eq_true] at h1
      by_cases h3 : characterMarker.isPrefixOf (pyStrip l) = true
      · rw [parseStep_character _ _ h1 hl h3]
        dsimp only
        rw [ih hrest (cs ++ [pyStrip ((pyStrip l).drop 10)]) as]
        simp [classifyChar, classifyAction, h1, hl, h3]
      · rw [Bool.not_eq_true] at h3
        by_cases h4 : isComment (pyStrip l) = true
        · rw [parseStep_comment _ _ h1 hl h3 h4, ih hrest cs as]
          simp [classifyChar, classifyAction, h1, hl, h3, h4]
        · rw [Bool.not_eq_true] at h4
          rw [parseStep_action _ _ h1 hl h3 h4]
          dsimp only
          rw [ih hrest cs (as ++ [pyStrip l])]
          simp [classifyChar, classifyAction, h1, hl, h3, h4]

theorem sealScene_nonempty (S : List Scene) (cur : Scene)
    (h : cur.description.isEmpty = false) : sealScene S cur = S ++ [cur] := by
  simp [sealScene, h]

theorem sealScene_of_empty (S : List Scene) (cur : Scene)
    (h : cur.description.isEmpty = true) : sealScene S cur = S := by
  simp [sealScene, h]

/-- Decomposition of the parser around one scene block: a `SCENE:` header
with non-empty description, followed by marker-free lines `mid`, followed
either by the end of input or by the next `SCENE:` header, yields exactly the
scene built from that header and `mid`'s payloads, sandwiched between the
parses of the surrounding fragments. -/
theorem parseLines_decompose (pre mid post : List (List Char)) (e : List Char)
    (he : sceneMarker.isPrefixOf (pyStrip e) = true)
    (hd : (pyStrip ((pyStrip e).drop 6)).isEmpty = false)
    (hm : ∀ l ∈ mid, sceneMarker.isPrefixOf (pyStrip l) = false)
    (hp : post = [] ∨ ∃ e2 post2, post = e2 :: post2 ∧
      sceneMarker.isPrefixOf (pyStrip e2) = true) :
    parseLines (pre ++ e :: (mid ++ post)) =
      parseLines pre ++
        ⟨pyStrip ((pyStrip e).drop 6), mid.filterMap classifyChar,
          mid.filterMap classifyAction⟩ :: parseLines post := by
  rcases hF : List.foldl parseStep ([], emptyScene) pre with ⟨S0, c0⟩
  simp only [parseLines, List.foldl_append, List.foldl_cons, hF]
  rw [parseStep_scene (S0, c0) e he]
  dsimp only
  rw [foldl_accum mid hm (sealScene S0 c0) (pyStrip ((pyStrip e).drop 6)) [] []]
  simp only [List.nil_append]
  have hd' : (Scene.mk (pyStrip ((pyStrip e).drop 6)) (mid.filterMap classifyChar)
      (mid.filterMap classifyAction)).description.isEmpty = false := hd
  rcases hp with hpost | ⟨e2, post2, hpost, he2⟩
  · subst hpost
    simp only [List.foldl_nil]
    rw [sealScene_nonempty _ _ hd', sealScene_of_empty [] emptyScene (by rfl)]
  · subst hpost
    simp only [List.foldl_cons]
    rw [parseStep_scene (sealScene S0 c0,
      Scene.mk (pyStrip ((pyStrip e).drop 6)) (mid.filterMap classifyChar)
        (mid.filterMap classifyAction)) e2 he2]
    rw [parseStep_scene (([] : List Scene), emptyScene) e2 he2]
    dsimp only
    rw [sealScene_nonempty _ _ hd', sealScene_of_empty [] emptyScene (by rfl)]
    rw [scenes_shift post2 (sealScene S0 c0 ++
      [Scene.mk (pyStrip ((pyStrip e).drop 6)) (mid.filterMap classifyChar)
        (mid.filterMap classifyAction)])
      ⟨pyStrip ((pyStrip e2).drop 6), [], []⟩]
    dsimp only
    rw [sealScene_append]
    simp

/-- C4: for every input text, each emitted scene's actions are exactly the
action-classified lines lying between its `SCENE:` marker and the next
marker (or end of input), in their source line order — so action order within
a scene equals source line order, each action line is attributed to the scene
whose marker most recently preceded it, and no line of a different scene's
block leaks in. -/
theorem action_attribution (script : List Char) (pre mid post : List (List Char))
    (e : List Char)
    (hsplit : splitLines (pyStrip script) = pre ++ e :: (mid ++ post))
    (he : sceneMarker.isPrefixOf (pyStrip e) = true)
    (hd : (pyStrip ((pyStrip e).drop 6)).isEmpty = false)
    (hm : ∀ l ∈ mid, sceneMarker.isPrefixOf (pyStrip l) = false)
    (hp : post = [] ∨ ∃ e2 post2, post = e2 :: post2 ∧
      sceneMarker.isPrefixOf (pyStrip e2) = true) :
    parse_script script =
      parseLines pre ++
        ⟨pyStrip ((pyStrip e).drop 6), mid.filterMap classifyChar,
          mid.filterMap classifyAction⟩ :: parseLines post := by
  unfold parse_script
  rw [hsplit]
  exact parseLines_decompose pre mid post e he hd hm hp

/-- Witness for C4: in a script with a stray leading line and two scene
blocks, scene `a` gets exactly its own block's `CHARACTER:` payload and its
two action lines, in order, and scene `b`'s block stays separate. -/
theorem action_attribution_w :
    parse_script "x\nSCENE: a\nCHARACTER: c\nact1\n#no\nact2\nSCENE: b\nact3".toList =
      parseLines ["x".toList] ++
        ⟨pyStrip ((pyStrip "SCENE: a".toList).drop 6),
          ["CHARACTER: c".toList, "act1".toList, "#no".toList,
            "act2".toList].filterMap classifyChar,
          ["CHARACTER: c".toList, "act1".toList, "#no".toList,
            "act2".toList].filterMap classifyAction⟩ ::
        parseLines ["SCENE: b".toList, "act3".toList] :=
  action_attribution "x\nSCENE: a\nCHARACTER: c\nact1\n#no\nact2\nSCENE: b\nact3".toList
    ["x".toList]
    ["CHARACTER: c".toList, "act1".toList, "#no".toList, "act2".toList]
    ["SCENE: b".toList, "act3".toList]
    "SCENE: a".toList (by decide) (by decide) (by decide) (by decide)
    (Or.inr ⟨"SCENE: b".toList, ["act3".toList], rfl, by decide⟩)
